import Mathlib

/-!
Shallow embedding of `src/juejin_checkin.py` (class `JueJinAutoCheckin`).

Modelling choices, documented once here:

* Effects (log lines, Feishu notifications, sleeps, transport attempts) are
  recorded in a `Trace`; Python exceptions are modelled by their `str(e)`
  message in an `Except String` layer.  A computation is a writer/exception
  value `M α = Except String α × Trace`.
* The network is modelled by a transport function `Nat → Outcome`: for each
  attempt index it either raises a `requests.exceptions.RequestException`
  (constructor `exn`, carrying `str(e)`) or yields a `Response`.
* JSON values are `null`, integers, strings and objects (association lists).
  Booleans and floats do not occur in any claim and are not modelled.
  `Response.jsonBody = none` models a body on which `response.json()`
  raises a JSON decode error; `some fields` models a body decoding to a
  JSON object with those fields.
* Python `str(x)` interpolation (`pyStr`) is modelled for the scalar values
  that can reach a format string in the claims; formatting of a whole dict
  never occurs on any path a claim exercises and is abstracted.
* `if not response:` on the `Option Response` returned by the wrapper is
  modelled by Python truthiness: `None` is falsy, and a `requests`
  response is falsy exactly when its status code is in 400-599
  (`Response.__bool__` is `Response.ok`), see `Response.ok` below.
* A `.get` call on a present but non-dict `data` value raises
  `AttributeError` in Python; the model raises with the corresponding
  `str(e)` (`attrErrMsg`).
-/

/-- JSON values as decoded by `response.json()`: objects are association
lists of fields (keys unique in every input of interest). -/
inductive Json where
  | null : Json
  | num : Int → Json
  | str : String → Json
  | obj : List (String × Json) → Json

/-- The parts of a `requests` response object the script reads: the HTTP
status code, the raw body text, and the result of `response.json()`
(`none` when decoding raises, `some fields` when it yields an object). -/
structure Response where
  status_code : Nat
  text : String
  jsonBody : Option (List (String × Json))

/-- Transport-level outcome of one `requests.request` call: either a
`requests.exceptions.RequestException` with message `str(e)`, or a response. -/
inductive Outcome where
  | exn : String → Outcome
  | resp : Response → Outcome

/-- Python truthiness of a `requests` response: `Response.__bool__` returns
`Response.ok`, which is false exactly for HTTP status codes 400-599. -/
def Response.ok (r : Response) : Bool :=
  !(decide (400 ≤ r.status_code) && decide (r.status_code < 600))

/-- Observable effects of a run: number of `requests.request` calls made,
log lines in order, Feishu notifications as (title, content) pairs in
order, and the durations of `time.sleep` calls in order. -/
structure Trace where
  attempts : Nat
  logs : List String
  notifies : List (String × String)
  sleeps : List Nat
deriving Repr, DecidableEq

def Trace.empty : Trace := ⟨0, [], [], []⟩

def Trace.append (a b : Trace) : Trace :=
  ⟨a.attempts + b.attempts, a.logs ++ b.logs, a.notifies ++ b.notifies,
   a.sleeps ++ b.sleeps⟩

/-- A computation of the script: a result (or an uncaught Python exception,
carrying `str(e)`) together with the effects it emitted before finishing
or raising. -/
structure M (α : Type) where
  res : Except String α
  trace : Trace

def M.pure {α : Type} (a : α) : M α := ⟨Except.ok a, Trace.empty⟩

def M.bind {α β : Type} (x : M α) (f : α → M β) : M β :=
  match x.res with
  | Except.ok a => ⟨(f a).res, x.trace.append (f a).trace⟩
  | Except.error e => ⟨Except.error e, x.trace⟩

instance : Monad M where
  pure := M.pure
  bind := M.bind

/-- Emit one log line (`self.log`). -/
def logM (s : String) : M Unit := ⟨Except.ok (), ⟨0, [s], [], []⟩⟩

/-- Raise a Python exception with message `str(e)`. -/
def raiseM {α : Type} (e : String) : M α := ⟨Except.error e, Trace.empty⟩

/-- Notification event of `send_feishu_notify(title, content)`.  The
function body (token check, webhook POST, its own logging) catches every
exception and is below the granularity any claim observes; the observable
event is the (title, content) pair. -/
def send_feishu_notify (title content : String) : M Unit :=
  ⟨Except.ok (), ⟨0, [], [(title, content)], []⟩⟩

def RETRY_TIMES : Nat := 3
def RETRY_INTERVAL : Nat := 60

/-- Loop body of `request_with_retry`: attempts `fuel` more iterations
starting at loop index `i` (source: `for i in range(RETRY_TIMES)`).
Each iteration makes one transport attempt; on a response it returns it,
on a `RequestException` it logs the attempt number and, when
`i < RETRY_TIMES - 1`, sleeps `RETRY_INTERVAL`. -/
def retryLoop (tp : Nat → Outcome) : Nat → Nat → M (Option Response)
  | _, 0 => ⟨Except.ok none, Trace.empty⟩
  | i, fuel + 1 =>
    match tp i with
    | Outcome.resp r => ⟨Except.ok (some r), ⟨1, [], [], []⟩⟩
    | Outcome.exn e =>
      let t1 : Trace :=
        ⟨1, ["请求失败（第" ++ toString (i + 1) ++ "次）：" ++ e], [],
         if i < RETRY_TIMES - 1 then [RETRY_INTERVAL] else []⟩
      let rest := retryLoop tp (i + 1) fuel
      ⟨rest.res, t1.append rest.trace⟩

/-- Source `request_with_retry`: up to `RETRY_TIMES` attempts of the given
transport. -/
def request_with_retry (tp : Nat → Outcome) : M (Option Response) :=
  retryLoop tp 0 RETRY_TIMES

/-- Field lookup in a decoded JSON object (Python `dict.get(key)` with no
default: `none` models Python `None`). -/
def dictGet : List (String × Json) → String → Option Json
  | [], _ => none
  | (k, v) :: rest, key => if k = key then some v else dictGet rest key

/-- Python `dict.get(key, default)`. -/
def dictGetD (fields : List (String × Json)) (key : String) (d : Json) : Json :=
  (dictGet fields key).getD d

/-- Message (`str(e)`) of the `AttributeError` raised by calling `.get` on
a non-dict value, as `result.get("data", \x7b\x7d).get(...)` does when the
stored `data` value is not an object; no claim inspects the text. -/
def attrErrMsg : Json → String
  | Json.null => "\x27NoneType\x27 object has no attribute \x27get\x27"
  | Json.num _ => "\x27int\x27 object has no attribute \x27get\x27"
  | Json.str _ => "\x27str\x27 object has no attribute \x27get\x27"
  | Json.obj _ => ""

/-- Python `x == n` for a JSON value against an int literal: true exactly
when the value is that integer (booleans/floats are outside the model). -/
def jsonEqNum (x : Json) (n : Int) : Bool :=
  match x with
  | Json.num m => m = n
  | _ => false

/-- Python `str(x)` for the JSON values that reach a format string in the
script; a whole dict never reaches a format string on any path a claim
observes, so its rendering is abstracted. -/
def pyStr : Json → String
  | Json.null => "None"
  | Json.num n => toString n
  | Json.str s => s
  | Json.obj _ => "\x7b...\x7d"

/-- Python string slice `s[:n]` (by characters/code points). -/
def pySlice (s : String) (n : Nat) : String := ⟨s.data.take n⟩

/-- Source `check_cookie_valid`: validate the cookie against the user-info
endpoint reached through transport `tp`.  The source tests
`if not response:`, which is true both for `None` and for a falsy
(status 400-599) response; `response.json()` is unguarded, so a truthy
200 response whose body does not decode raises, as does a non-dict
`data` value in the user-name lookup. -/
def check_cookie_valid (tp : Nat → Outcome) : M Bool := do
  logM "开始校验掘金Cookie有效性"
  let response ← request_with_retry tp
  let failBranch : M Bool := do
    logM "Cookie校验请求失败"
    pure false
  match response with
  | none => failBranch
  | some r =>
    if !r.ok then failBranch
    else if r.status_code = 200 then
      match r.jsonBody with
      | none => raiseM "Expecting value: line 1 column 1 (char 0)"
      | some result =>
        if jsonEqNum (dictGetD result "err_no" Json.null) 0 then
          match dictGetD result "data" (Json.obj []) with
          | Json.obj dataFields => do
            logM ("Cookie有效，当前用户：" ++
              pyStr (dictGetD dataFields "user_name" (Json.str "未知")))
            pure true
          | j => raiseM (attrErrMsg j)
        else do
          logM ("Cookie无效：" ++ pyStr (dictGetD result "err_msg" (Json.str "未知错误")))
          pure false
    else do
      logM ("Cookie校验失败，状态码：" ++ toString r.status_code)
      pure false

/-- World a run operates on: the transport behavior of the user-info
endpoint and of the check-in endpoint. -/
structure World where
  userInfoTp : Nat → Outcome
  checkinTp : Nat → Outcome

/-- Source `juejin_checkin`: the check-in workflow.  The check-in
response is tested with `if not response:`, so a received but falsy
(status 400-599) response takes the same generic request-failure exit as
`None`, and its body is never parsed; a present non-dict `data` value in
the success branch raises `AttributeError`. -/
def juejin_checkin (w : World) : M Bool := do
  logM "===== 开始执行掘金签到 ====="
  let ok ← check_cookie_valid w.userInfoTp
  if !ok then do
    send_feishu_notify "签到失败" "Cookie无效/已过期，请重新导出更新"
    pure false
  else do
    let response ← request_with_retry w.checkinTp
    let failBranch : M Bool := do
      logM "签到请求重试多次仍失败"
      send_feishu_notify "签到失败" "签到接口请求超时/异常，请手动签到"
      pure false
    match response with
    | none => failBranch
    | some r =>
      if !r.ok then failBranch
      else
        match r.jsonBody with
        | none => do
          logM ("签到响应解析失败：" ++ r.text)
          send_feishu_notify "签到失败" ("接口响应异常：" ++ pySlice r.text 100)
          pure false
        | some result =>
          let err_no := dictGetD result "err_no" (Json.num (-1))
          if jsonEqNum err_no 0 then
            match dictGetD result "data" (Json.obj []) with
            | Json.obj dataFields => do
              let incr_point := dictGetD dataFields "incr_point" (Json.num 0)
              let total_point := dictGetD dataFields "sum_point" (Json.num 0)
              let success_log := "签到成功！获得矿石：" ++ pyStr incr_point ++
                "，累计矿石：" ++ pyStr total_point
              logM success_log
              send_feishu_notify "签到成功" success_log
              pure true
            | j => raiseM (attrErrMsg j)
          else if jsonEqNum err_no 165001 then do
            logM "今日已签到，无需重复操作"
            send_feishu_notify "已签到" "今日掘金已完成签到，无需重复操作"
            pure true
          else do
            let err_msg := pyStr (dictGetD result "err_msg" (Json.str "未知错误"))
            logM ("签到失败：" ++ err_msg ++ "（错误码：" ++ pyStr err_no ++ "）")
            send_feishu_notify "签到失败"
              ("错误原因：" ++ err_msg ++ "（错误码：" ++ pyStr err_no ++ "），请手动签到")
            pure false

/-- Source `run`: top-level guard.  Any exception from the workflow is caught,
logged and notified; the `finally` block logs the end marker on every
exit path, so `run` itself always returns normally. -/
def run (w : World) : M Unit :=
  match (juejin_checkin w).res with
  | Except.ok _ =>
    ⟨Except.ok (),
     (juejin_checkin w).trace.append ⟨0, ["===== 掘金签到流程结束 =====\n"], [], []⟩⟩
  | Except.error e =>
    ⟨Except.ok (),
     (((juejin_checkin w).trace.append
        ⟨0, ["签到流程异常：" ++ e], [("流程异常", "签到脚本执行出错：" ++ e)], []⟩).append
       ⟨0, ["===== 掘金签到流程结束 =====\n"], [], []⟩)⟩

/-- Whether a transport attempt raises. -/
def Outcome.isFail : Outcome → Bool
  | Outcome.exn _ => true
  | Outcome.resp _ => false

/-- Does the character list begin with the pattern? -/
def startsWithSeq : List Char → List Char → Bool
  | _, [] => true
  | [], _ :: _ => false
  | c :: cs, p :: ps => c == p && startsWithSeq cs ps

/-- Does the pattern occur contiguously in the list? -/
def hasSeq : List Char → List Char → Bool
  | [], pat => startsWithSeq [] pat
  | c :: cs, pat => startsWithSeq (c :: cs) pat || hasSeq cs pat

/-- The string `sub` occurs contiguously inside `s`. -/
def strContains (s sub : String) : Prop := hasSeq s.data sub.data = true

instance (s sub : String) : Decidable (strContains s sub) := by
  unfold strContains
  infer_instance
/-- Python `item.split("=", 1)` restricted to how the source uses it:
`some (k, v)` splits at the first `=`; `none` models `"=" in item` being
false, in which case the source never splits. -/
def breakAtEq : List Char → Option (List Char × List Char)
  | [] => none
  | c :: cs =>
    if c = '=' then some ([], cs)
    else
      match breakAtEq cs with
      | some (a, b) => some (c :: a, b)
      | none => none

/-- Python dict assignment `d[key] = value` on an insertion-ordered dict:
overwrite in place when the key is present, otherwise append. -/
def dictInsert (d : List (String × String)) (k v : String) :
    List (String × String) :=
  if d.any (fun p => p.1 = k) then
    d.map (fun p => if p.1 = k then (k, v) else p)
  else d ++ [(k, v)]

/-- Python `s.split(";")` on the character sequence: every occurrence of
`;` separates, empty pieces included, and the empty sequence yields one
empty piece. -/
def pySplitSemi : List Char → List (List Char)
  | [] => [[]]
  | c :: cs =>
    if c = ';' then [] :: pySplitSemi cs
    else
      match pySplitSemi cs with
      | r :: rs => (c :: r) :: rs
      | [] => [[c]]

/-- Python `item.strip()` on the character sequence: drop whitespace from
both ends (the claims only involve ASCII whitespace). -/
def pyStrip (l : List Char) : List Char :=
  ((l.dropWhile Char.isWhitespace).reverse.dropWhile Char.isWhitespace).reverse

/-- Source `_parse_cookie`: empty cookie gives an empty dict; otherwise split the
cookie on `;`, strip each item, keep the items containing `=`, and split
each kept item at its first `=`. -/
def parse_cookie (cookie : String) : List (String × String) :=
  if cookie = "" then []
  else
    (pySplitSemi cookie.data).foldl
      (fun d item =>
        match breakAtEq (pyStrip item) with
        | some (k, v) => dictInsert d ⟨k⟩ ⟨v⟩
        | none => d) []

/-- Relation between one raw `;`-piece of the cookie string and its
well-formed description: either it is `k=v` split at the first `=` (no
`=` in `k`), with no surrounding whitespace, or it is a dropped piece
whose stripped form contains no `=`. -/
def SegOk : List Char → Option (String × String) → Prop
  | piece, some (k, v) =>
    piece = k.data ++ '=' :: v.data ∧ ('=' ∉ k.data) ∧ pyStrip piece = piece
  | piece, none => '=' ∉ pyStrip piece



/-- User-info transport of the examples: the cookie validates. -/
def okUserTp : Nat → Outcome := fun _ =>
  Outcome.resp ⟨200, "", some [("err_no", Json.num 0),
    ("data", Json.obj [("user_name", Json.str "tester")])]⟩

/-- User-info transport answering 200 with a non-zero error code. -/
def badCookieTp : Nat → Outcome := fun _ =>
  Outcome.resp ⟨200, "", some [("err_no", Json.num 403),
    ("err_msg", Json.str "must login")]⟩

/-- Check-in success response of the spec example. -/
def pointsResp : Response :=
  ⟨200, "", some [("err_no", Json.num 0),
    ("data", Json.obj [("incr_point", Json.num 5), ("sum_point", Json.num 105)])]⟩

/-- Transport raising on the first two attempts, then succeeding. -/
def failTwiceTp : Nat → Outcome := fun n =>
  if n < 2 then Outcome.exn "timeout" else Outcome.resp pointsResp

/-- Transport raising on every attempt. -/
def allFailTp : Nat → Outcome := fun _ => Outcome.exn "connection error"

/-- Transport yielding a 503 response on the first attempt. -/
def badStatusTp : Nat → Outcome := fun _ =>
  Outcome.resp ⟨503, "busy", some []⟩

/-- World of the spec success example. -/
def successWorld : World := ⟨okUserTp, fun _ => Outcome.resp pointsResp⟩

/-- World of the already-checked-in example. -/
def alreadyWorld : World :=
  ⟨okUserTp, fun _ => Outcome.resp ⟨200, "", some [("err_no", Json.num 165001)]⟩⟩

/-- World of the business-error example. -/
def busyWorld : World :=
  ⟨okUserTp, fun _ => Outcome.resp
    ⟨200, "", some [("err_no", Json.num 500), ("err_msg", Json.str "server busy")]⟩⟩

/-- World whose check-in response body is not JSON. -/
def htmlWorld : World :=
  ⟨okUserTp, fun _ => Outcome.resp ⟨200, "<html>service unavailable</html>", none⟩⟩

/-- World whose check-in response carries an error message but no error
code. -/
def missingErrNoWorld : World :=
  ⟨okUserTp, fun _ => Outcome.resp ⟨200, "", some [("err_msg", Json.str "busy")]⟩⟩

/-- World whose user-info response is 200 with an undecodable body, which
makes the workflow raise. -/
def badUserJsonWorld : World :=
  ⟨fun _ => Outcome.resp ⟨200, "<html>", none⟩, fun _ => Outcome.resp pointsResp⟩

/-- World whose check-in response is a falsy 503 carrying the success
body. -/
def errStatusSuccessWorld : World :=
  ⟨okUserTp, fun _ => Outcome.resp ⟨503, "", some [("err_no", Json.num 0),
    ("data", Json.obj [("incr_point", Json.num 5), ("sum_point", Json.num 105)])]⟩⟩

/-- World whose check-in response is a falsy 503 carrying the
already-checked-in body. -/
def errStatusAlreadyWorld : World :=
  ⟨okUserTp, fun _ => Outcome.resp ⟨503, "", some [("err_no", Json.num 165001)]⟩⟩

/-- World whose check-in response is a falsy 503 carrying a business-error
body. -/
def errStatusBusyWorld : World :=
  ⟨okUserTp, fun _ => Outcome.resp
    ⟨503, "", some [("err_no", Json.num 500), ("err_msg", Json.str "server busy")]⟩⟩

/-- World whose check-in response is a falsy 503 with an undecodable HTML
body. -/
def errStatusHtmlWorld : World :=
  ⟨okUserTp, fun _ => Outcome.resp ⟨503, "<html>oops</html>", none⟩⟩


@[simp] theorem M.bind_def {α β : Type} (x : M α) (f : α → M β) :
    x >>= f = M.bind x f := rfl

@[simp] theorem M.pure_eq {α : Type} (a : α) :
    (Pure.pure a : M α) = ⟨Except.ok a, Trace.empty⟩ := rfl

@[simp] theorem M.bind_mk_ok {α β : Type} (a : α) (t : Trace) (f : α → M β) :
    M.bind ⟨Except.ok a, t⟩ f = ⟨(f a).res, t.append (f a).trace⟩ := rfl

@[simp] theorem M.bind_mk_error {α β : Type} (e : String) (t : Trace) (f : α → M β) :
    M.bind ⟨Except.error e, t⟩ f = ⟨Except.error e, t⟩ := rfl

theorem M.bind_res_ok {α β : Type} {x : M α} {a : α} (h : x.res = Except.ok a)
    (f : α → M β) : M.bind x f = ⟨(f a).res, x.trace.append (f a).trace⟩ := by
  cases x with
  | mk r t => cases h; rfl

@[simp] theorem Trace.attempts_append (a b : Trace) :
    (a.append b).attempts = a.attempts + b.attempts := rfl

@[simp] theorem Trace.logs_append (a b : Trace) :
    (a.append b).logs = a.logs ++ b.logs := rfl

@[simp] theorem Trace.notifies_append (a b : Trace) :
    (a.append b).notifies = a.notifies ++ b.notifies := rfl

@[simp] theorem Trace.sleeps_append (a b : Trace) :
    (a.append b).sleeps = a.sleeps ++ b.sleeps := rfl

@[simp] theorem Trace.attempts_empty : Trace.empty.attempts = 0 := rfl

@[simp] theorem Trace.logs_empty : Trace.empty.logs = [] := rfl

@[simp] theorem Trace.notifies_empty : Trace.empty.notifies = [] := rfl

@[simp] theorem Trace.sleeps_empty : Trace.empty.sleeps = [] := rfl

theorem retryLoop_res_ok (tp : Nat → Outcome) (i fuel : Nat) :
    ∃ o, (retryLoop tp i fuel).res = Except.ok o := by
  induction fuel generalizing i with
  | zero => exact ⟨none, rfl⟩
  | succ n ih =>
    cases h : tp i with
    | exn e => simpa [retryLoop, h] using ih (i + 1)
    | resp r => exact ⟨some r, by simp [retryLoop, h]⟩

theorem retryLoop_notifies (tp : Nat → Outcome) (i fuel : Nat) :
    (retryLoop tp i fuel).trace.notifies = [] := by
  induction fuel generalizing i with
  | zero => rfl
  | succ n ih =>
    cases h : tp i with
    | exn e => simpa [retryLoop, h] using ih (i + 1)
    | resp r => simp [retryLoop, h]

theorem retryLoop_attempts_le (tp : Nat → Outcome) (i fuel : Nat) :
    (retryLoop tp i fuel).trace.attempts ≤ fuel := by
  induction fuel generalizing i with
  | zero => simp [retryLoop]
  | succ n ih =>
    cases h : tp i with
    | exn e =>
      have := ih (i + 1)
      simp [retryLoop, h]
      omega
    | resp r => simp [retryLoop, h]

theorem startsWithSeq_append (p b : List Char) :
    startsWithSeq (p ++ b) p = true := by
  induction p with
  | nil => simp [startsWithSeq]
  | cons c cs ih => simp [startsWithSeq, ih]

theorem hasSeq_of_startsWithSeq (l p : List Char)
    (h : startsWithSeq l p = true) : hasSeq l p = true := by
  cases l with
  | nil => simpa [hasSeq] using h
  | cons c cs => simp [hasSeq, h]

theorem hasSeq_cons (c : Char) (cs p : List Char)
    (h : hasSeq cs p = true) : hasSeq (c :: cs) p = true := by
  simp [hasSeq, h]

theorem hasSeq_append (a p b : List Char) : hasSeq (a ++ (p ++ b)) p = true := by
  induction a with
  | nil => simpa using hasSeq_of_startsWithSeq _ _ (startsWithSeq_append p b)
  | cons c cs ih => exact hasSeq_cons _ _ _ ih

theorem strContains_middle (x y z : String) : strContains (x ++ y ++ z) y := by
  unfold strContains
  have h : (x ++ y ++ z).data = x.data ++ (y.data ++ z.data) := by
    simp [String.data_append]
  rw [h]
  exact hasSeq_append _ _ _

theorem strContains_append_right (x y : String) : strContains (x ++ y) y := by
  unfold strContains
  have h : (x ++ y).data = x.data ++ (y.data ++ []) := by simp [String.data_append]
  rw [h]
  exact hasSeq_append _ _ _

theorem strContains_append_left (x y : String) : strContains (x ++ y) x := by
  unfold strContains
  have h : (x ++ y).data = x.data ++ y.data := by simp [String.data_append]
  rw [h]
  exact hasSeq_of_startsWithSeq _ _ (startsWithSeq_append _ _)

theorem Outcome.exists_exn_of_isFail {o : Outcome} (h : o.isFail = true) :
    ∃ e, o = Outcome.exn e := by
  cases o with
  | exn e => exact ⟨e, rfl⟩
  | resp r => simp [Outcome.isFail] at h

/-- C1: for every transport behavior, `request_with_retry` makes at most 3
transport attempts; if attempt `i < 3` yields a response and all earlier
attempts raised, that response is returned, with one `RETRY_INTERVAL`
sleep after each of the `i` preceding failed attempts; and if all 3
attempts raise, the wrapper returns `none` having slept exactly twice —
after the first and second attempts, never after the final one. -/
theorem C1_request_with_retry (tp : Nat → Outcome) :
    (request_with_retry tp).trace.attempts ≤ 3 ∧
    (∀ i r, i < 3 → tp i = Outcome.resp r →
      (∀ j, j < i → (tp j).isFail = true) →
      (request_with_retry tp).res = Except.ok (some r) ∧
      (request_with_retry tp).trace.sleeps = List.replicate i RETRY_INTERVAL) ∧
    ((∀ i, i < 3 → (tp i).isFail = true) →
      (request_with_retry tp).res = Except.ok none ∧
      (request_with_retry tp).trace.sleeps = [RETRY_INTERVAL, RETRY_INTERVAL]) := by
  refine ⟨retryLoop_attempts_le tp 0 3, ?_, ?_⟩
  · intro i r hi hresp hprev
    interval_cases i
    · constructor <;>
        simp [request_with_retry, RETRY_TIMES, retryLoop, hresp, List.replicate]
    · obtain ⟨e0, h0⟩ := Outcome.exists_exn_of_isFail (hprev 0 (by omega))
      constructor <;>
        simp [request_with_retry, RETRY_TIMES, RETRY_INTERVAL, retryLoop, h0, hresp,
          List.replicate]
    · obtain ⟨e0, h0⟩ := Outcome.exists_exn_of_isFail (hprev 0 (by omega))
      obtain ⟨e1, h1⟩ := Outcome.exists_exn_of_isFail (hprev 1 (by omega))
      constructor <;>
        simp [request_with_retry, RETRY_TIMES, RETRY_INTERVAL, retryLoop, h0, h1, hresp,
          List.replicate]
  · intro hall
    obtain ⟨e0, h0⟩ := Outcome.exists_exn_of_isFail (hall 0 (by omega))
    obtain ⟨e1, h1⟩ := Outcome.exists_exn_of_isFail (hall 1 (by omega))
    obtain ⟨e2, h2⟩ := Outcome.exists_exn_of_isFail (hall 2 (by omega))
    constructor <;>
      simp [request_with_retry, RETRY_TIMES, RETRY_INTERVAL, retryLoop, h0, h1, h2]

/-- Witness for C1: with the transport that raises twice then succeeds,
the wrapper returns the successful response and sleeps exactly twice. -/
theorem C1_request_with_retry_witness :
    (2 < 3 ∧ failTwiceTp 2 = Outcome.resp pointsResp) ∧
    (request_with_retry failTwiceTp).res = Except.ok (some pointsResp) ∧
    (request_with_retry failTwiceTp).trace.sleeps = List.replicate 2 RETRY_INTERVAL := by
  refine ⟨⟨by omega, by simp [failTwiceTp]⟩, ?_⟩
  exact (C1_request_with_retry failTwiceTp).2.1 2 pointsResp (by omega)
    (by simp [failTwiceTp])
    (fun j hj => by interval_cases j <;> simp [failTwiceTp, Outcome.isFail])

/-- C2: a response received on attempt `i` — in particular one with a
non-200 status code — ends the loop immediately with exactly `i + 1`
transport attempts; and an attempt is followed by a further attempt only
when it raised a transport exception. -/
theorem C2_no_retry_on_http_status (tp : Nat → Outcome) :
    (∀ i r, i < 3 → tp i = Outcome.resp r → r.status_code ≠ 200 →
      (∀ j, j < i → (tp j).isFail = true) →
      (request_with_retry tp).res = Except.ok (some r) ∧
      (request_with_retry tp).trace.attempts = i + 1) ∧
    (∀ i, i + 1 < (request_with_retry tp).trace.attempts → (tp i).isFail = true) := by
  constructor
  · intro i r hi hresp _ hprev
    interval_cases i
    · constructor <;> simp [request_with_retry, RETRY_TIMES, retryLoop, hresp]
    · obtain ⟨e0, h0⟩ := Outcome.exists_exn_of_isFail (hprev 0 (by omega))
      constructor <;> simp [request_with_retry, RETRY_TIMES, retryLoop, h0, hresp]
    · obtain ⟨e0, h0⟩ := Outcome.exists_exn_of_isFail (hprev 0 (by omega))
      obtain ⟨e1, h1⟩ := Outcome.exists_exn_of_isFail (hprev 1 (by omega))
      constructor <;> simp [request_with_retry, RETRY_TIMES, retryLoop, h0, h1, hresp]
  · intro i hlt
    cases h0 : tp 0 with
    | resp r0 => simp [request_with_retry, RETRY_TIMES, retryLoop, h0] at hlt
    | exn e0 =>
      cases h1 : tp 1 with
      | resp r1 =>
        simp [request_with_retry, RETRY_TIMES, retryLoop, h0, h1] at hlt
        have hz : i = 0 := by omega
        subst hz
        simp [h0, Outcome.isFail]
      | exn e1 =>
        have hb : (request_with_retry tp).trace.attempts ≤ 3 :=
          retryLoop_attempts_le tp 0 3
        have hi : i < 2 := by omega
        interval_cases i
        · simp [h0, Outcome.isFail]
        · simp [h1, Outcome.isFail]

/-- Witness for C2: a 503 response on the first attempt is returned after
exactly one transport attempt. -/
theorem C2_no_retry_on_http_status_witness :
    (0 < 3 ∧ badStatusTp 0 = Outcome.resp ⟨503, "busy", some []⟩ ∧ (503 : Nat) ≠ 200) ∧
    (request_with_retry badStatusTp).res = Except.ok (some ⟨503, "busy", some []⟩) ∧
    (request_with_retry badStatusTp).trace.attempts = 0 + 1 := by
  refine ⟨⟨by omega, rfl, by omega⟩, ?_⟩
  exact (C2_no_retry_on_http_status badStatusTp).1 0 ⟨503, "busy", some []⟩
    (by omega) rfl (by simp) (fun j hj => absurd hj (by omega))

theorem jsonEqNum_errno_false {result : List (String × Json)}
    (h : dictGet result "err_no" ≠ some (Json.num 0)) :
    jsonEqNum (dictGetD result "err_no" Json.null) 0 = false := by
  unfold dictGetD
  cases hg : dictGet result "err_no" with
  | none => rfl
  | some j =>
    cases j with
    | num n =>
      have hn : n ≠ 0 := by
        intro hn
        exact h (by rw [hg, hn])
      simp [jsonEqNum, hn]
    | null => rfl
    | str s => rfl
    | obj o => rfl

theorem errno_of_jsonEqNum {result : List (String × Json)}
    (h : jsonEqNum (dictGetD result "err_no" Json.null) 0 = true) :
    dictGet result "err_no" = some (Json.num 0) := by
  unfold dictGetD at h
  cases hg : dictGet result "err_no" with
  | none =>
    rw [hg] at h
    simp [jsonEqNum] at h
  | some j =>
    rw [hg] at h
    cases j with
    | num n =>
      simp [jsonEqNum] at h
      simp [h]
    | null => simp [jsonEqNum] at h
    | str s => simp [jsonEqNum] at h
    | obj o2 => simp [jsonEqNum] at h

theorem check_cookie_valid_res (tp : Nat → Outcome) :
    (check_cookie_valid tp).res =
      match (request_with_retry tp).res with
      | Except.ok none => Except.ok false
      | Except.ok (some r) =>
        if !r.ok then Except.ok false
        else if r.status_code = 200 then
          match r.jsonBody with
          | none => Except.error "Expecting value: line 1 column 1 (char 0)"
          | some result =>
            if jsonEqNum (dictGetD result "err_no" Json.null) 0 then
              match dictGetD result "data" (Json.obj []) with
              | Json.obj _ => Except.ok true
              | j => Except.error (attrErrMsg j)
            else Except.ok false
        else Except.ok false
      | Except.error e => Except.error e := by
  obtain ⟨o, ho⟩ := retryLoop_res_ok tp 0 3
  have ho2 : (request_with_retry tp).res = Except.ok o := ho
  unfold check_cookie_valid
  simp only [M.bind_def, logM, M.bind_mk_ok]
  rw [M.bind_res_ok ho2, ho2]
  cases o with
  | none => simp
  | some r =>
    cases hok : r.ok with
    | false => simp [hok]
    | true =>
      by_cases hst : r.status_code = 200
      · cases hb : r.jsonBody with
        | none => simp [hok, hst, hb, raiseM]
        | some result =>
          cases he : jsonEqNum (dictGetD result "err_no" Json.null) 0 with
          | false => simp [hok, hst, hb, he]
          | true =>
            cases hd : dictGetD result "data" (Json.obj []) with
            | obj dataFields => simp [hok, hst, hb, he, hd, logM]
            | null => simp [hok, hst, hb, he, hd, raiseM]
            | num n => simp [hok, hst, hb, he, hd, raiseM]
            | str s => simp [hok, hst, hb, he, hd, raiseM]
      · simp [hok, hst]

theorem check_cookie_valid_notifies (tp : Nat → Outcome) :
    (check_cookie_valid tp).trace.notifies = [] := by
  obtain ⟨o, ho⟩ := retryLoop_res_ok tp 0 3
  have ho2 : (request_with_retry tp).res = Except.ok o := ho
  have hn : (request_with_retry tp).trace.notifies = [] := retryLoop_notifies tp 0 3
  unfold check_cookie_valid
  simp only [M.bind_def, logM, M.bind_mk_ok]
  rw [M.bind_res_ok ho2]
  cases o with
  | none => simp [hn, logM]
  | some r =>
    cases hok : r.ok with
    | false => simp [hok, hn, logM]
    | true =>
      by_cases hst : r.status_code = 200
      · cases hb : r.jsonBody with
        | none => simp [hok, hn, hst, hb, raiseM]
        | some result =>
          cases he : jsonEqNum (dictGetD result "err_no" Json.null) 0 with
          | false => simp [hok, hn, hst, hb, he, logM]
          | true =>
            cases hd : dictGetD result "data" (Json.obj []) with
            | obj dataFields => simp [hok, hn, hst, hb, he, hd, logM]
            | null => simp [hok, hn, hst, hb, he, hd, raiseM]
            | num n => simp [hok, hn, hst, hb, he, hd, raiseM]
            | str s => simp [hok, hn, hst, hb, he, hd, raiseM]
      · simp [hok, hn, hst, logM]

/-- C3: credential validation fails closed — it answers `false` whenever
the wrapper returns no response, or the response status is not 200, or the
decoded error-code field is anything other than the integer 0 (absence
included); and it answers `true` only for a 200 response whose decoded
error-code field is the integer 0. -/
theorem C3_check_cookie_valid_fails_closed (tp : Nat → Outcome) :
    ((request_with_retry tp).res = Except.ok none →
      (check_cookie_valid tp).res = Except.ok false) ∧
    (∀ r, (request_with_retry tp).res = Except.ok (some r) →
      r.status_code ≠ 200 → (check_cookie_valid tp).res = Except.ok false) ∧
    (∀ r result, (request_with_retry tp).res = Except.ok (some r) →
      r.jsonBody = some result → dictGet result "err_no" ≠ some (Json.num 0) →
      (check_cookie_valid tp).res = Except.ok false) ∧
    ((check_cookie_valid tp).res = Except.ok true →
      ∃ r result, (request_with_retry tp).res = Except.ok (some r) ∧
        r.status_code = 200 ∧ r.jsonBody = some result ∧
        dictGet result "err_no" = some (Json.num 0)) := by
  have hres := check_cookie_valid_res tp
  refine ⟨?_, ?_, ?_, ?_⟩
  · intro h
    rw [h] at hres
    exact hres
  · intro r h hst
    rw [h] at hres
    cases hok : r.ok with
    | false => simpa [hok] using hres
    | true => simpa [hok, hst] using hres
  · intro r result h hb he
    rw [h] at hres
    cases hok : r.ok with
    | false => simpa [hok] using hres
    | true =>
      by_cases hst : r.status_code = 200
      · rw [hres]
        simp [hok, hst, hb, jsonEqNum_errno_false he]
      · simpa [hok, hst] using hres
  · intro h
    rw [h] at hres
    obtain ⟨o, ho⟩ := retryLoop_res_ok tp 0 3
    have ho2 : (request_with_retry tp).res = Except.ok o := ho
    rw [ho2] at hres
    cases o with
    | none => simp at hres
    | some r =>
      cases hok : r.ok with
      | false => simp [hok] at hres
      | true =>
        by_cases hst : r.status_code = 200
        · cases hb : r.jsonBody with
          | none => simp [hok, hst, hb] at hres
          | some result =>
            simp [hok, hst, hb] at hres
            refine ⟨r, result, ho2, hst, hb, ?_⟩
            cases he : jsonEqNum (dictGetD result "err_no" Json.null) 0 with
            | false => simp [he] at hres
            | true => exact errno_of_jsonEqNum he
        · simp [hok, hst] at hres

/-- Witness for C3: a 200 user-info response with error code 403 makes the
validation answer false. -/
theorem C3_check_cookie_valid_fails_closed_witness :
    ((request_with_retry badCookieTp).res =
        Except.ok (some ⟨200, "", some [("err_no", Json.num 403),
          ("err_msg", Json.str "must login")]⟩) ∧
      dictGet [("err_no", Json.num 403), ("err_msg", Json.str "must login")]
          "err_no" ≠ some (Json.num 0)) ∧
    (check_cookie_valid badCookieTp).res = Except.ok false := by
  refine ⟨⟨rfl, by simp [dictGet]⟩, ?_⟩
  exact (C3_check_cookie_valid_fails_closed badCookieTp).2.2.1
    ⟨200, "", some [("err_no", Json.num 403), ("err_msg", Json.str "must login")]⟩
    [("err_no", Json.num 403), ("err_msg", Json.str "must login")]
    rfl rfl (by simp [dictGet])

/-- C4 (amended): once past a valid cookie, a received truthy check-in
response (status outside 400-599) decoding to an object whose `err_no`
field is the integer 0 and whose `data` field (defaulting to an empty
object when absent) is an object makes the workflow return success, and
the success notification contains the rendered incremental and cumulative
point counts, each extracted from the data object with default 0. -/
theorem C4_checkin_success (w : World) (r : Response)
    (result dataFields : List (String × Json))
    (hval : (check_cookie_valid w.userInfoTp).res = Except.ok true)
    (hr : (request_with_retry w.checkinTp).res = Except.ok (some r))
    (hok : r.ok = true)
    (hb : r.jsonBody = some result)
    (he : dictGet result "err_no" = some (Json.num 0))
    (hd : dictGetD result "data" (Json.obj []) = Json.obj dataFields) :
    (juejin_checkin w).res = Except.ok true ∧
    ∃ c, ("签到成功", c) ∈ (juejin_checkin w).trace.notifies ∧
      strContains c (pyStr (dictGetD dataFields "incr_point" (Json.num 0))) ∧
      strContains c (pyStr (dictGetD dataFields "sum_point" (Json.num 0))) := by
  have he2 : dictGetD result "err_no" (Json.num (-1)) = Json.num 0 := by
    unfold dictGetD
    rw [he]
    rfl
  unfold juejin_checkin
  simp only [M.bind_def, logM, M.bind_mk_ok]
  rw [M.bind_res_ok hval]
  simp only [Bool.not_true, Bool.false_eq_true, if_false]
  rw [M.bind_res_ok hr]
  simp only [hok, Bool.not_true, Bool.false_eq_true, if_false, hb, he2, hd,
    M.bind_mk_ok, M.pure_eq, send_feishu_notify, logM]
  constructor
  · simp [jsonEqNum]
  · refine ⟨"签到成功！获得矿石：" ++
      pyStr (dictGetD dataFields "incr_point" (Json.num 0)) ++ "，累计矿石：" ++
      pyStr (dictGetD dataFields "sum_point" (Json.num 0)), ?_, ?_, ?_⟩
    · simp [jsonEqNum]
    · rw [String.append_assoc]
      exact strContains_middle _ _ _
    · exact strContains_append_right _ _

/-- Counterexample to C4 as stated: a check-in response with status 503
whose body has `err_no` 0 and the full data object is falsy in requests,
so the source takes the generic request-failure exit without parsing the
body: the workflow returns failure and sends the generic failure
notification, not a success one. -/
theorem C4_counterexample :
    (juejin_checkin errStatusSuccessWorld).res = Except.ok false ∧
    (juejin_checkin errStatusSuccessWorld).trace.notifies =
      [("签到失败", "签到接口请求超时/异常，请手动签到")] := by
  exact ⟨rfl, by decide⟩

/-- Witness for C4 at the spec example response: success, and the
notification contains "5" and "105". -/
theorem C4_checkin_success_witness :
    ((check_cookie_valid successWorld.userInfoTp).res = Except.ok true ∧
     (request_with_retry successWorld.checkinTp).res = Except.ok (some pointsResp) ∧
     pointsResp.ok = true ∧
     pointsResp.jsonBody = some [("err_no", Json.num 0),
       ("data", Json.obj [("incr_point", Json.num 5), ("sum_point", Json.num 105)])]) ∧
    ((juejin_checkin successWorld).res = Except.ok true ∧
     ∃ c, ("签到成功", c) ∈ (juejin_checkin successWorld).trace.notifies ∧
       strContains c "5" ∧ strContains c "105") := by
  refine ⟨⟨rfl, rfl, rfl, rfl⟩, ?_⟩
  exact C4_checkin_success successWorld pointsResp
    [("err_no", Json.num 0),
     ("data", Json.obj [("incr_point", Json.num 5), ("sum_point", Json.num 105)])]
    [("incr_point", Json.num 5), ("sum_point", Json.num 105)]
    rfl rfl rfl rfl rfl rfl

theorem jsonEqNum_false_of_ne {j : Json} {n : Int} (h : j ≠ Json.num n) :
    jsonEqNum j n = false := by
  cases j with
  | num m =>
    have hm : m ≠ n := fun hm => h (by rw [hm])
    simp [jsonEqNum, hm]
  | null => rfl
  | str s => rfl
  | obj o => rfl

/-- C5 (amended): once past a valid cookie, a received truthy check-in
response (status outside 400-599) decoding to an object whose `err_no` is
the integer 165001 makes the workflow return success, and the only
notification of the whole workflow is the neutral already-checked-in one
— in particular no notification is labeled a failure. -/
theorem C5_already_checked_in (w : World) (r : Response)
    (result : List (String × Json))
    (hval : (check_cookie_valid w.userInfoTp).res = Except.ok true)
    (hr : (request_with_retry w.checkinTp).res = Except.ok (some r))
    (hok : r.ok = true)
    (hb : r.jsonBody = some result)
    (he : dictGet result "err_no" = some (Json.num 165001)) :
    (juejin_checkin w).res = Except.ok true ∧
    (juejin_checkin w).trace.notifies = [("已签到", "今日掘金已完成签到，无需重复操作")] ∧
    ∀ t c, (t, c) ∈ (juejin_checkin w).trace.notifies → t ≠ "签到失败" := by
  have hccn := check_cookie_valid_notifies w.userInfoTp
  have hrwn : (request_with_retry w.checkinTp).trace.notifies = [] :=
    retryLoop_notifies w.checkinTp 0 3
  have key : (juejin_checkin w).res = Except.ok true ∧
      (juejin_checkin w).trace.notifies = [("已签到", "今日掘金已完成签到，无需重复操作")] := by
    unfold juejin_checkin
    simp only [M.bind_def, logM, M.bind_mk_ok]
    rw [M.bind_res_ok hval]
    simp only [Bool.not_true, Bool.false_eq_true, if_false]
    rw [M.bind_res_ok hr]
    simp only [hok, Bool.not_true, Bool.false_eq_true, if_false, hb, dictGetD,
      he, Option.getD_some, M.bind_mk_ok, M.pure_eq, send_feishu_notify, logM]
    constructor
    · simp [jsonEqNum]
    · simp [jsonEqNum, hccn, hrwn]
  refine ⟨key.1, key.2, ?_⟩
  intro t c hm
  rw [key.2] at hm
  simp at hm
  rw [hm.1]
  decide

/-- Witness for C5 at the spec example: already-checked-in response gives
success and the neutral notification. -/
theorem C5_already_checked_in_witness :
    ((check_cookie_valid alreadyWorld.userInfoTp).res = Except.ok true ∧
     (request_with_retry alreadyWorld.checkinTp).res =
       Except.ok (some ⟨200, "", some [("err_no", Json.num 165001)]⟩) ∧
     (⟨200, "", some [("err_no", Json.num 165001)]⟩ : Response).ok = true) ∧
    ((juejin_checkin alreadyWorld).res = Except.ok true ∧
     (juejin_checkin alreadyWorld).trace.notifies =
       [("已签到", "今日掘金已完成签到，无需重复操作")]) := by
  refine ⟨⟨rfl, rfl, rfl⟩, ?_⟩
  have h := C5_already_checked_in alreadyWorld
    ⟨200, "", some [("err_no", Json.num 165001)]⟩
    [("err_no", Json.num 165001)] rfl rfl rfl rfl rfl
  exact ⟨h.1, h.2.1⟩

/-- Counterexample to C5 as stated: at a 503 check-in response with
`err_no` 165001 the source takes the generic request-failure exit: the
workflow returns failure and the only notification is labeled 签到失败,
not the neutral already-checked-in one. -/
theorem C5_counterexample :
    (juejin_checkin errStatusAlreadyWorld).res = Except.ok false ∧
    (juejin_checkin errStatusAlreadyWorld).trace.notifies =
      [("签到失败", "签到接口请求超时/异常，请手动签到")] := by
  exact ⟨rfl, by decide⟩

/-- C6 (amended): once past validation, a received truthy response
(status outside 400-599) with an `err_no`
field present but neither 0 nor 165001 makes the workflow return failure,
and both the failure log line and the failure notification contain the
rendered error code and the message field (default "未知错误"). -/
theorem C6_checkin_other_error (w : World) (r : Response)
    (result : List (String × Json)) (j : Json)
    (hval : (check_cookie_valid w.userInfoTp).res = Except.ok true)
    (hr : (request_with_retry w.checkinTp).res = Except.ok (some r))
    (hok : r.ok = true)
    (hb : r.jsonBody = some result)
    (he : dictGet result "err_no" = some j)
    (h0 : j ≠ Json.num 0) (h165 : j ≠ Json.num 165001) :
    (juejin_checkin w).res = Except.ok false ∧
    (∃ l, l ∈ (juejin_checkin w).trace.logs ∧ strContains l (pyStr j) ∧
      strContains l (pyStr (dictGetD result "err_msg" (Json.str "未知错误")))) ∧
    (∃ c, ("签到失败", c) ∈ (juejin_checkin w).trace.notifies ∧
      strContains c (pyStr j) ∧
      strContains c (pyStr (dictGetD result "err_msg" (Json.str "未知错误")))) := by
  unfold juejin_checkin
  simp only [M.bind_def, logM, M.bind_mk_ok]
  rw [M.bind_res_ok hval]
  simp only [Bool.not_true, Bool.false_eq_true, if_false]
  rw [M.bind_res_ok hr]
  simp only [hok, Bool.not_true, hb, dictGetD, he, Option.getD_some,
    M.bind_mk_ok, M.pure_eq, send_feishu_notify, logM,
    jsonEqNum_false_of_ne h0, jsonEqNum_false_of_ne h165,
    Bool.false_eq_true, if_false]
  refine ⟨by simp, ?_, ?_⟩
  · refine ⟨"签到失败：" ++ pyStr ((dictGet result "err_msg").getD (Json.str "未知错误")) ++
      "（错误码：" ++ pyStr j ++ "）", by simp, strContains_middle _ _ _, ?_⟩
    rw [String.append_assoc, String.append_assoc]
    exact strContains_middle _ _ _
  · refine ⟨"错误原因：" ++ pyStr ((dictGet result "err_msg").getD (Json.str "未知错误")) ++
      "（错误码：" ++ pyStr j ++ "），请手动签到", by simp, strContains_middle _ _ _, ?_⟩
    rw [String.append_assoc, String.append_assoc]
    exact strContains_middle _ _ _

/-- Witness for C6 at the spec example: error 500 with message
"server busy" gives failure, and the notification contains "500" and
"server busy". -/
theorem C6_checkin_other_error_witness :
    (dictGet [("err_no", Json.num 500), ("err_msg", Json.str "server busy")]
        "err_no" = some (Json.num 500) ∧
      (⟨200, "", some [("err_no", Json.num 500),
        ("err_msg", Json.str "server busy")]⟩ : Response).ok = true ∧
      Json.num 500 ≠ Json.num 0 ∧ Json.num 500 ≠ Json.num 165001) ∧
    ((juejin_checkin busyWorld).res = Except.ok false ∧
     ∃ c, ("签到失败", c) ∈ (juejin_checkin busyWorld).trace.notifies ∧
       strContains c "500" ∧ strContains c "server busy") := by
  refine ⟨⟨rfl, rfl, by simp, by simp⟩, ?_⟩
  have h := C6_checkin_other_error busyWorld
    ⟨200, "", some [("err_no", Json.num 500), ("err_msg", Json.str "server busy")]⟩
    [("err_no", Json.num 500), ("err_msg", Json.str "server busy")] (Json.num 500)
    rfl rfl rfl rfl rfl (by simp) (by simp)
  exact ⟨h.1, h.2.2⟩

/-- Counterexample to C6 as stated: at a 503 check-in response carrying
`err_no` 500 and `err_msg` "server busy" the source takes the generic
request-failure exit without parsing the body: neither the notification
nor any log line contains the code or the message. -/
theorem C6_counterexample :
    (juejin_checkin errStatusBusyWorld).trace.notifies =
      [("签到失败", "签到接口请求超时/异常，请手动签到")] ∧
    ¬ strContains "签到接口请求超时/异常，请手动签到" "server busy" ∧
    ¬ strContains "签到接口请求超时/异常，请手动签到" "500" ∧
    (∀ l ∈ (juejin_checkin errStatusBusyWorld).trace.logs,
      ¬ strContains l "server busy") := by
  refine ⟨by decide, by decide, by decide, by decide⟩

theorem pySlice_length_le (s : String) (n : Nat) : (pySlice s n).length ≤ n := by
  show (s.data.take n).length ≤ n
  simp [List.length_take]

theorem length_label_append (s : String) :
    ("接口响应异常：" ++ s).length = 7 + s.length := by
  show ("接口响应异常：" ++ s).data.length = 7 + s.data.length
  rw [String.data_append]
  rw [List.length_append]
  rfl

/-- C7 (amended): once past validation, a received truthy response
(status outside 400-599) whose body fails
JSON decoding makes the workflow return failure, a log line contains the
full raw body text, and the failure notification is the raw text
truncated to its first 100 characters behind a fixed 7-character label —
hence of length at most 107. -/
theorem C7_undecodable_body (w : World) (r : Response)
    (hval : (check_cookie_valid w.userInfoTp).res = Except.ok true)
    (hr : (request_with_retry w.checkinTp).res = Except.ok (some r))
    (hok : r.ok = true)
    (hb : r.jsonBody = none) :
    (juejin_checkin w).res = Except.ok false ∧
    (∃ l, l ∈ (juejin_checkin w).trace.logs ∧ strContains l r.text) ∧
    (∃ c, ("签到失败", c) ∈ (juejin_checkin w).trace.notifies ∧
      c = "接口响应异常：" ++ pySlice r.text 100 ∧
      strContains c (pySlice r.text 100) ∧ c.length ≤ 107) := by
  unfold juejin_checkin
  simp only [M.bind_def, logM, M.bind_mk_ok]
  rw [M.bind_res_ok hval]
  simp only [Bool.not_true, Bool.false_eq_true, if_false]
  rw [M.bind_res_ok hr]
  simp only [hok, Bool.not_true, Bool.false_eq_true, if_false, hb,
    M.bind_mk_ok, M.pure_eq, send_feishu_notify, logM]
  refine ⟨by simp,
    ⟨"签到响应解析失败：" ++ r.text, by simp, strContains_append_right _ _⟩,
    ⟨"接口响应异常：" ++ pySlice r.text 100, by simp, rfl,
      strContains_append_right _ _, ?_⟩⟩
  have h1 := length_label_append (pySlice r.text 100)
  have h2 := pySlice_length_le r.text 100
  omega

/-- Witness for C7: an HTML body gives failure, a notification bounded by
107 characters containing the (short, hence untruncated) raw text. -/
theorem C7_undecodable_body_witness :
    ((request_with_retry htmlWorld.checkinTp).res =
      Except.ok (some ⟨200, "<html>service unavailable</html>", none⟩) ∧
     (⟨200, "<html>service unavailable</html>", none⟩ : Response).ok = true) ∧
    ((juejin_checkin htmlWorld).res = Except.ok false ∧
     ∃ c, ("签到失败", c) ∈ (juejin_checkin htmlWorld).trace.notifies ∧
       strContains c "<html>service unavailable</html>" ∧ c.length ≤ 107) := by
  have h := C7_undecodable_body htmlWorld
    ⟨200, "<html>service unavailable</html>", none⟩ rfl rfl rfl rfl
  refine ⟨⟨rfl, rfl⟩, h.1, ?_⟩
  obtain ⟨c, hm, _, hcc, hcl⟩ := h.2.2
  exact ⟨c, hm, hcc, hcl⟩


/-- Counterexample to C7 as stated: an undecodable HTML body arriving
with status 503 — the typical error page — is falsy in requests, so the
source takes the generic request-failure exit: no log line contains the
raw text and the notification does not contain it either. -/
theorem C7_counterexample :
    (juejin_checkin errStatusHtmlWorld).res = Except.ok false ∧
    (juejin_checkin errStatusHtmlWorld).trace.notifies =
      [("签到失败", "签到接口请求超时/异常，请手动签到")] ∧
    ¬ strContains "签到接口请求超时/异常，请手动签到" "<html>oops</html>" ∧
    (∀ l ∈ (juejin_checkin errStatusHtmlWorld).trace.logs,
      ¬ strContains l "<html>oops</html>") := by
  refine ⟨rfl, by decide, by decide, by decide⟩

/-- C9: for every world, `run` returns normally; the final log line is the
end-of-run marker on every exit path; and whenever the workflow raised an
exception, `run` logs its message and sends the generic process-exception
notification. -/
theorem C9_run_guard (w : World) :
    (run w).res = Except.ok () ∧
    (run w).trace.logs.getLast? = some "===== 掘金签到流程结束 =====\n" ∧
    (∀ e, (juejin_checkin w).res = Except.error e →
      ("签到流程异常：" ++ e) ∈ (run w).trace.logs ∧
      ("流程异常", "签到脚本执行出错：" ++ e) ∈ (run w).trace.notifies) := by
  unfold run
  cases hx : (juejin_checkin w).res with
  | ok b =>
    refine ⟨rfl, ?_, ?_⟩
    · simp [List.getLast?_concat]
    · intro e he
      simp at he
  | error e0 =>
    refine ⟨rfl, ?_, ?_⟩
    · simp [List.getLast?_concat]
    · intro e he
      injection he with h
      subst h
      constructor
      · simp
      · simp

/-- Witness for C9: a 200 user-info response with an undecodable body makes
the workflow raise; `run` still returns normally, logs and notifies the
exception, and ends with the final marker. -/
theorem C9_run_guard_witness :
    (juejin_checkin badUserJsonWorld).res =
      Except.error "Expecting value: line 1 column 1 (char 0)" ∧
    (run badUserJsonWorld).res = Except.ok () ∧
    (run badUserJsonWorld).trace.logs.getLast? =
      some "===== 掘金签到流程结束 =====\n" ∧
    ("签到流程异常：" ++ "Expecting value: line 1 column 1 (char 0)") ∈
      (run badUserJsonWorld).trace.logs ∧
    ("流程异常", "签到脚本执行出错：" ++ "Expecting value: line 1 column 1 (char 0)") ∈
      (run badUserJsonWorld).trace.notifies := by
  have h := C9_run_guard badUserJsonWorld
  have h2 := h.2.2 "Expecting value: line 1 column 1 (char 0)" rfl
  exact ⟨rfl, h.1, h.2.1, h2.1, h2.2⟩

/-- Counterexample to C10 as stated: with `err_no` absent but `err_msg`
present ("busy"), the workflow does return failure and the notification
contains code -1, but it does not contain the default error message
"未知错误" — refuting "a notification containing code -1 and the default
error message" for this response. -/
theorem C10_counterexample :
    (juejin_checkin missingErrNoWorld).res = Except.ok false ∧
    (juejin_checkin missingErrNoWorld).trace.notifies =
      [("签到失败", "错误原因：busy（错误码：-1），请手动签到")] ∧
    ¬ strContains "错误原因：busy（错误码：-1），请手动签到" "未知错误" := by
  refine ⟨rfl, by decide, by decide⟩

/-- C10 amended: for a received truthy response (status outside 400-599)
whose decoded object has no `err_no` field, the
sentinel -1 is substituted and the generic failure branch is taken: the
workflow returns failure and the failure notification contains the
rendered code -1 and the `err_msg` field — which equals the default
unknown-error placeholder exactly when `err_msg` is also absent. -/
theorem C10_missing_err_no (w : World) (r : Response)
    (result : List (String × Json))
    (hval : (check_cookie_valid w.userInfoTp).res = Except.ok true)
    (hr : (request_with_retry w.checkinTp).res = Except.ok (some r))
    (hok : r.ok = true)
    (hb : r.jsonBody = some result)
    (he : dictGet result "err_no" = none) :
    (juejin_checkin w).res = Except.ok false ∧
    (∃ c, ("签到失败", c) ∈ (juejin_checkin w).trace.notifies ∧
      strContains c "-1" ∧
      strContains c (pyStr (dictGetD result "err_msg" (Json.str "未知错误")))) ∧
    (dictGet result "err_msg" = none →
      pyStr (dictGetD result "err_msg" (Json.str "未知错误")) = "未知错误") := by
  have hdef : dictGet result "err_msg" = none →
      pyStr (dictGetD result "err_msg" (Json.str "未知错误")) = "未知错误" := by
    intro hm
    rw [dictGetD, hm]
    rfl
  refine ⟨?_, ?_, hdef⟩
  · unfold juejin_checkin
    simp only [M.bind_def, logM, M.bind_mk_ok]
    rw [M.bind_res_ok hval]
    simp only [Bool.not_true, Bool.false_eq_true, if_false]
    rw [M.bind_res_ok hr]
    simp only [hok, Bool.not_true, hb, dictGetD, he, Option.getD_none,
      M.bind_mk_ok, M.pure_eq, send_feishu_notify, logM,
      jsonEqNum_false_of_ne (show Json.num (-1) ≠ Json.num 0 by simp),
      jsonEqNum_false_of_ne (show Json.num (-1) ≠ Json.num 165001 by simp),
      Bool.false_eq_true, if_false]
  · unfold juejin_checkin
    simp only [M.bind_def, logM, M.bind_mk_ok]
    rw [M.bind_res_ok hval]
    simp only [Bool.not_true, Bool.false_eq_true, if_false]
    rw [M.bind_res_ok hr]
    simp only [hok, Bool.not_true, hb, dictGetD, he, Option.getD_none,
      M.bind_mk_ok, M.pure_eq, send_feishu_notify, logM,
      jsonEqNum_false_of_ne (show Json.num (-1) ≠ Json.num 0 by simp),
      jsonEqNum_false_of_ne (show Json.num (-1) ≠ Json.num 165001 by simp),
      Bool.false_eq_true, if_false]
    refine ⟨"错误原因：" ++ pyStr ((dictGet result "err_msg").getD (Json.str "未知错误")) ++
      "（错误码：" ++ pyStr (Json.num (-1)) ++ "），请手动签到", by simp, ?_, ?_⟩
    · have hpy : pyStr (Json.num (-1)) = "-1" := rfl
      rw [← hpy]
      exact strContains_middle _ _ _
    · rw [String.append_assoc, String.append_assoc]
      exact strContains_middle _ _ _

/-- Witness for the amended C10: the concrete world with `err_msg` "busy"
and no `err_no` returns failure with "-1" and "busy" in the notification. -/
theorem C10_missing_err_no_witness :
    (dictGet [("err_msg", Json.str "busy")] "err_no" = none ∧
     (⟨200, "", some [("err_msg", Json.str "busy")]⟩ : Response).ok = true) ∧
    ((juejin_checkin missingErrNoWorld).res = Except.ok false ∧
     ∃ c, ("签到失败", c) ∈ (juejin_checkin missingErrNoWorld).trace.notifies ∧
       strContains c "-1" ∧ strContains c "busy") := by
  refine ⟨⟨rfl, rfl⟩, ?_⟩
  have h := C10_missing_err_no missingErrNoWorld
    ⟨200, "", some [("err_msg", Json.str "busy")]⟩
    [("err_msg", Json.str "busy")] rfl rfl rfl rfl rfl
  exact ⟨h.1, h.2.1⟩


theorem breakAtEq_none (l : List Char) (h : '=' ∉ l) : breakAtEq l = none := by
  induction l with
  | nil => rfl
  | cons c cs ih =>
    rw [List.mem_cons, not_or] at h
    unfold breakAtEq
    rw [if_neg (fun hc => h.1 hc.symm), ih h.2]

theorem breakAtEq_split (kd vd : List Char) (h : '=' ∉ kd) :
    breakAtEq (kd ++ '=' :: vd) = some (kd, vd) := by
  induction kd with
  | nil => simp [breakAtEq]
  | cons c cs ih =>
    rw [List.mem_cons, not_or] at h
    rw [List.cons_append]
    unfold breakAtEq
    rw [if_neg (fun hc => h.1 hc.symm), ih h.2]

theorem dictInsert_fresh (d : List (String × String)) (k v : String)
    (h : ∀ p ∈ d, p.1 ≠ k) : dictInsert d k v = d ++ [(k, v)] := by
  unfold dictInsert
  have hc : ¬((d.any fun p => p.1 = k) = true) := by
    simp only [List.any_eq_true, decide_eq_true_eq]
    rintro ⟨p, hp, hpk⟩
    exact h p hp hpk
  rw [if_neg hc]

theorem parse_cookie_foldl (pieces : List (List Char))
    (items : List (Option (String × String)))
    (hf : List.Forall₂ SegOk pieces items) :
    ((items.filterMap id).map Prod.fst).Nodup →
    ∀ d : List (String × String),
      (∀ p ∈ d, ∀ q ∈ items.filterMap id, p.1 ≠ q.1) →
      pieces.foldl (fun d item =>
          match breakAtEq (pyStrip item) with
          | some (k, v) => dictInsert d ⟨k⟩ ⟨v⟩
          | none => d) d
        = d ++ items.filterMap id := by
  induction hf with
  | nil =>
    intro _ d _
    simp
  | @cons piece item pieces2 items2 hseg hrest ih =>
    intro hnodup d hdisj
    cases item with
    | none =>
      have hbe : breakAtEq (pyStrip piece) = none := breakAtEq_none _ hseg
      rw [List.foldl_cons]
      simp only [hbe]
      simp only [List.filterMap_cons] at hnodup hdisj ⊢
      exact ih hnodup d hdisj
    | some kv =>
      obtain ⟨k, v⟩ := kv
      obtain ⟨hpiece, hk, hstrip⟩ := hseg
      have hbe : breakAtEq (pyStrip piece) = some (k.data, v.data) := by
        rw [hstrip, hpiece]
        exact breakAtEq_split _ _ hk
      rw [List.foldl_cons]
      simp only [hbe]
      have hmk : (⟨k.data⟩ : String) = k := rfl
      have hmv : (⟨v.data⟩ : String) = v := rfl
      rw [hmk, hmv]
      simp only [List.filterMap_cons, id] at hnodup hdisj ⊢
      rw [List.map_cons, List.nodup_cons] at hnodup
      have hfresh : ∀ p ∈ d, p.1 ≠ k := by
        intro p hp
        exact hdisj p hp (k, v) (List.mem_cons_self _ _)
      rw [dictInsert_fresh d k v hfresh]
      have hdisj2 : ∀ p ∈ d ++ [(k, v)], ∀ q ∈ items2.filterMap id, p.1 ≠ q.1 := by
        intro p hp q hq
        rcases List.mem_append.mp hp with hpd | hpk
        · exact hdisj p hpd q (List.mem_cons_of_mem _ hq)
        · have hp1 : p = (k, v) := by simpa using hpk
          subst hp1
          intro hkq
          exact hnodup.1 (hkq ▸ List.mem_map_of_mem Prod.fst hq)
      rw [ih hnodup.2 (d ++ [(k, v)]) hdisj2]
      simp

/-- C8: for every non-empty cookie string whose `;`-pieces are each either
a well-formed `key=value` segment (split at the first `=` only, no
surrounding whitespace, keys pairwise distinct) or a piece whose stripped
form contains no `=`, parsing yields exactly the described key-value pairs
in order, the `=`-free pieces being dropped. -/
theorem C8_parse_cookie (cookie : String) (pieces : List (List Char))
    (items : List (Option (String × String)))
    (hne : cookie ≠ "")
    (hsplit : pySplitSemi cookie.data = pieces)
    (hf : List.Forall₂ SegOk pieces items)
    (hnodup : ((items.filterMap id).map Prod.fst).Nodup) :
    parse_cookie cookie = items.filterMap id := by
  unfold parse_cookie
  rw [if_neg hne, hsplit]
  simpa using parse_cookie_foldl pieces items hf hnodup [] (by simp)

/-- Witness for C8: a concrete cookie with two well-formed pairs and one
`=`-free segment parses to exactly the two pairs, the third segment being
dropped. -/
theorem C8_parse_cookie_witness :
    (pySplitSemi "sessionid=abc123;uid=42;theme".data =
      ["sessionid=abc123".data, "uid=42".data, "theme".data]) ∧
    parse_cookie "sessionid=abc123;uid=42;theme" =
      [("sessionid", "abc123"), ("uid", "42")] := by
  refine ⟨by decide, ?_⟩
  have h := C8_parse_cookie "sessionid=abc123;uid=42;theme"
    ["sessionid=abc123".data, "uid=42".data, "theme".data]
    [some ("sessionid", "abc123"), some ("uid", "42"), none]
    (by decide) (by decide)
    (List.Forall₂.cons ⟨by decide, by decide, by decide⟩
      (List.Forall₂.cons ⟨by decide, by decide, by decide⟩
        (List.Forall₂.cons (show ('=' ∉ pyStrip "theme".data) by decide)
          List.Forall₂.nil)))
    (by decide)
  simpa using h
